import Mathlib

/-!
Verification development for the swing/day-trade FX simulation repository.

Each Python engine is shallowly embedded as a Lean function over exact
rational arithmetic (`ℚ` in place of Python floats, `ℤ` for unit counts),
faithful to the source line by line.  The theorems at the end of the file
settle the specification claims against these embeddings.

Namespaces:
* `Compound`  — `compound_backtest.py` (`calculate_lot`, `run_compound_simulation` loop)
* `Swing`     — `main.py` swing/WAIT live strategy (`calculate_lot`, `calculate_pnl`,
                `calculate_swap`, `check_and_execute` step)
* `DtLive`    — `main.py` `check_daytrade` / `main_daytrade.py` `check_and_execute`
                (live day-trade step, identical logic and constants)
* `DtOpt`     — `daytrade_optimize.py` (`calculate_lot`, `get_trend`, `run_backtest`)
* `Dashboard` — `app.py` `/api/history` win-rate aggregation
-/

namespace Compound

/-- Constant `INITIAL_CAPITAL = 1_000_000` from `compound_backtest.py`. -/
def INITIAL_CAPITAL : ℚ := 1000000

/-- Constant `SPREAD = 0.004` from `compound_backtest.py`. -/
def SPREAD : ℚ := 4 / 1000

/-- Constant `SWAP_PER_DAY = 100` (yen per 10,000 units per day). -/
def SWAP_PER_DAY : ℚ := 100

/-- Constant named `SAFETY_RATIO = 0.02` in `compound_backtest.py`
(renamed `SAFETY_FRAC` here). -/
def SAFETY_FRAC : ℚ := 2 / 100

/-- Function `calculate_lot` from `compound_backtest.py`:
`raw_lot = balance * SAFETY_RATIO; lot = int(raw_lot // 10000) * 10000;
return max(lot, 10000)`.  Python float floor-division `//` is exact floor
on these rationals. -/
def calculate_lot (balance : ℚ) : ℤ :=
  max (⌊balance * SAFETY_FRAC / 10000⌋ * 10000) 10000

/-- Loop state of `run_compound_simulation`: `cash`, `position` (0 or 1),
`current_lot`, `buy_price`. -/
structure SimState where
  cash : ℚ
  position : ℕ
  current_lot : ℤ
  buy_price : ℚ
  deriving DecidableEq, Repr

/-- Initial loop state: `cash = INITIAL_CAPITAL; position = 0;
current_lot = 0; buy_price = 0`. -/
def initState : SimState :=
  { cash := INITIAL_CAPITAL, position := 0, current_lot := 0, buy_price := 0 }

/-- One bar of input to the loop: price (`data['JPY=X'].iloc[i]`) and
signal (`data['Signal'].iloc[i]`, 1 = up / enter, 0 = down / exit; any
other value stands for the NaN produced by the initial `shift`). -/
structure Bar where
  price : ℚ
  signal : ℕ
  deriving DecidableEq, Repr

/-- One iteration of the `for i in range(len(data))` loop of
`run_compound_simulation` (the action-decision part, lines 74–95):
enter when flat and signal 1; exit when holding and signal 0; accrue
swap into cash when holding and signal 1; otherwise no change. -/
def step (s : SimState) (b : Bar) : SimState :=
  if s.position = 0 ∧ b.signal = 1 then
    { s with
        position := 1
        current_lot := calculate_lot s.cash
        buy_price := b.price + SPREAD }
  else if s.position = 1 ∧ b.signal = 0 then
    { s with
        position := 0
        cash := s.cash + (b.price - s.buy_price) * s.current_lot
        current_lot := 0
        buy_price := 0 }
  else if s.position = 1 ∧ b.signal = 1 then
    { s with cash := s.cash + SWAP_PER_DAY * (s.current_lot / 10000) }
  else s

/-- The equity valuation performed after each bar (lines 97–102):
`cash + unrealized` when holding, `cash` when flat. -/
def equity (s : SimState) (price : ℚ) : ℚ :=
  if s.position = 1 then s.cash + (price - s.buy_price) * s.current_lot
  else s.cash

/-- Running the simulation loop over a bar list from the initial state. -/
def run (bars : List Bar) : SimState :=
  bars.foldl step initState

end Compound

namespace Swing

/-- Constant `SPREAD_YEN = 0.004` from `main.py`. -/
def SPREAD_YEN : ℚ := 4 / 1000

/-- Constant `SWAP_LONG = 100` (yen per 10,000 units per day) from `main.py`. -/
def SWAP_LONG : ℚ := 100

/-- Constant named `LOT_RATIO = 0.02` in `main.py` (renamed `LOT_FRAC` here). -/
def LOT_FRAC : ℚ := 2 / 100

/-- Constant `MIN_UNITS = 10000` from `main.py`. -/
def MIN_UNITS : ℤ := 10000

/-- Constant `MAX_UNITS = 100000` from `main.py`. -/
def MAX_UNITS : ℤ := 100000

/-- Function `calculate_lot` from `main.py`:
`raw_lot = balance * LOT_RATIO; lot = int(raw_lot // 10000) * 10000;
lot = max(lot, MIN_UNITS); lot = min(lot, MAX_UNITS)`. -/
def calculate_lot (balance : ℚ) : ℤ :=
  min (max (⌊balance * LOT_FRAC / 10000⌋ * 10000) MIN_UNITS) MAX_UNITS

/-- Function `calculate_pnl` from `main.py`:
`(current_price - entry_price - SPREAD_YEN) * units` (long only). -/
def calculate_pnl (entry_price current_price : ℚ) (units : ℤ) : ℚ :=
  (current_price - entry_price - SPREAD_YEN) * units

/-- Function `calculate_swap` from `main.py` at the default `hours = 1`:
`(SWAP_LONG / 24) * (units / 10000)`. -/
def calculate_swap (units : ℤ) : ℚ :=
  SWAP_LONG / 24 * ((units : ℚ) / 10000)

/-- An OPEN row of `sim_positions` (the columns the engine reads/writes). -/
structure Pos where
  entry_price : ℚ
  current_price : ℚ
  units : ℤ
  unrealized_pnl : ℚ
  swap_total : ℚ
  deriving DecidableEq, Repr

/-- A row of `sim_trade_history` (numeric columns). -/
structure Trade where
  entry_price : ℚ
  exit_price : ℚ
  units : ℤ
  gross_pnl : ℚ
  spread_cost : ℚ
  swap_total : ℚ
  net_pnl : ℚ
  deriving DecidableEq, Repr

/-- Persisted state touched by `check_and_execute`:
`sim_config.current_balance`, the OPEN rows of `sim_positions`
(newest first, as returned by `ORDER BY entry_time DESC`), and the
`sim_trade_history` log. -/
structure DbState where
  balance : ℚ
  openRows : List Pos
  trades : List Trade
  deriving DecidableEq, Repr

/-- Market inputs of one invocation: the daily TNX signal
(`daily_signal == "UP"`), the 20-day moving-average trend filter
(`trend_ok`), and the USD/JPY price. -/
structure Obs where
  sigUp : Bool
  trendOk : Bool
  price : ℚ
  deriving DecidableEq, Repr

/-- The `sim_positions` row INSERTed on an ENTRY (`main.py`, lines
241–252): entry at the market price, compound lot from the current
balance, `unrealized_pnl` seeded with `-spread_cost`, `swap_total = 0`. -/
def entryRow (balance price : ℚ) : Pos :=
  { entry_price := price
    current_price := price
    units := calculate_lot balance
    unrealized_pnl := -(SPREAD_YEN * calculate_lot balance)
    swap_total := 0 }

/-- The `sim_trade_history` row INSERTed on an EXIT (`main.py`, lines
332–347): `gross_pnl` is the closing `unrealized_pnl` (which prices in
the spread via `calculate_pnl`), `swap_total` includes the final hour's
accrual, and `net_pnl = gross_pnl + swap_total`. -/
def closeTrade (p : Pos) (price : ℚ) : Trade :=
  { entry_price := p.entry_price
    exit_price := price
    units := p.units
    gross_pnl := calculate_pnl p.entry_price price p.units
    spread_cost := SPREAD_YEN * p.units
    swap_total := p.swap_total + calculate_swap p.units
    net_pnl := calculate_pnl p.entry_price price p.units +
      (p.swap_total + calculate_swap p.units) }

/-- One invocation of `check_and_execute` from `main.py` (the state
transition on `sim_config` / `sim_positions` / `sim_trade_history`;
`get_current_position` is the head of the OPEN rows):
* no position, `UP` signal and trend OK → INSERT an OPEN row at the
  market price with `unrealized_pnl = -spread_cost`, `swap_total = 0`
  (balance untouched);
* no position otherwise → WAIT;
* position held, `UP` signal → HOLD: UPDATE the row with the new mark
  price, `unrealized_pnl = calculate_pnl`, `swap_total += calculate_swap`
  (balance untouched);
* position held, signal not `UP` → EXIT: close the row, append a Trade
  with `gross_pnl = unrealized_pnl`, `net_pnl = gross_pnl + swap_total`,
  and add `net_pnl` to the balance. -/
def check_and_execute (s : DbState) (o : Obs) : DbState :=
  match s.openRows with
  | [] =>
    if o.sigUp && o.trendOk then
      { s with openRows := [entryRow s.balance o.price] }
    else s
  | p :: rest =>
    if o.sigUp then
      { s with openRows :=
          { p with
              current_price := o.price
              unrealized_pnl := calculate_pnl p.entry_price o.price p.units
              swap_total := p.swap_total + calculate_swap p.units } :: rest }
    else
      { balance := s.balance + (closeTrade p o.price).net_pnl
        openRows := rest
        trades := s.trades ++ [closeTrade p o.price] }

/-- Fresh persisted state: configured balance, no open position, empty
trade history. -/
def initDb (capital : ℚ) : DbState :=
  { balance := capital, openRows := [], trades := [] }

/-- A sequence of scheduler-triggered invocations. -/
def runLive (capital : ℚ) (obs : List Obs) : DbState :=
  obs.foldl check_and_execute (initDb capital)

end Swing

namespace DtLive

/-- Constant `DAYTRADE_TP = 0.15` from `main.py` (`TAKE_PROFIT` in `main_daytrade.py`). -/
def DAYTRADE_TP : ℚ := 15 / 100

/-- Constant `DAYTRADE_SL = 0.20` from `main.py` (`STOP_LOSS` in `main_daytrade.py`). -/
def DAYTRADE_SL : ℚ := 20 / 100

/-- Constant named `DAYTRADE_LOT_RATIO = 0.15` in `main.py` (renamed `DAYTRADE_LOT_FRAC`). -/
def DAYTRADE_LOT_FRAC : ℚ := 15 / 100

/-- Constant `DAYTRADE_START_HOUR = 10` (JST). -/
def DAYTRADE_START_HOUR : ℕ := 10

/-- Constant `DAYTRADE_END_HOUR = 18` (JST, forced-close boundary). -/
def DAYTRADE_END_HOUR : ℕ := 18

/-- Constant `SPREAD_YEN = 0.004` (`SPREAD` in `main_daytrade.py`). -/
def SPREAD_YEN : ℚ := 4 / 1000

/-- Function `calculate_daytrade_lot` from `main.py` (identical to `calculate_lot`
in `main_daytrade.py`): 15% of balance floored to 10,000-unit lots, at
least 10,000, no upper cap. -/
def calculate_daytrade_lot (balance : ℚ) : ℤ :=
  max (⌊balance * DAYTRADE_LOT_FRAC / 10000⌋ * 10000) 10000

/-- Predicate `is_daytrade_hours` (`is_trading_hours` in `main_daytrade.py`):
`DAYTRADE_START_HOUR <= now.hour < DAYTRADE_END_HOUR`, with the JST
wall-clock hour passed explicitly. -/
def is_daytrade_hours (hour : ℕ) : Bool :=
  decide (DAYTRADE_START_HOUR ≤ hour ∧ hour < DAYTRADE_END_HOUR)

/-- Predicate `is_force_close_time`: `now.hour >= DAYTRADE_END_HOUR`. -/
def is_force_close_time (hour : ℕ) : Bool :=
  decide (DAYTRADE_END_HOUR ≤ hour)

/-- The `action` strings written to `sim_daytrade_history`. -/
inductive Action where
  | FORCE_CLOSE
  | TAKE_PROFIT
  | STOP_LOSS
  deriving DecidableEq, Repr

/-- An OPEN row of `sim_daytrade_positions`. -/
structure Pos where
  entry_price : ℚ
  current_price : ℚ
  units : ℤ
  unrealized_pnl : ℚ
  deriving DecidableEq, Repr

/-- A row of `sim_daytrade_history`. -/
structure Trade where
  entry_price : ℚ
  exit_price : ℚ
  units : ℤ
  pnl : ℚ
  action : Action
  deriving DecidableEq, Repr

/-- Persisted day-trade state: `sim_daytrade_config.current_balance`,
OPEN rows of `sim_daytrade_positions` (newest first), and
`sim_daytrade_history`. -/
structure DbState where
  balance : ℚ
  openRows : List Pos
  history : List Trade
  deriving DecidableEq, Repr

/-- The exit arbitration of `check_daytrade` (`main.py`, lines 554–565)
and `main_daytrade.check_and_execute` (lines 186–197): forced close is
checked first, then take-profit, then stop-loss. -/
def exit_action (hour : ℕ) (pnl : ℚ) : Option Action :=
  if is_force_close_time hour then some Action.FORCE_CLOSE
  else if pnl ≥ DAYTRADE_TP then some Action.TAKE_PROFIT
  else if pnl ≤ -DAYTRADE_SL then some Action.STOP_LOSS
  else none

/-- The `sim_daytrade_positions` row INSERTed on an ENTRY (`main.py`,
lines 517–532): entry fill at `price + SPREAD_YEN`, 15% compound lot,
`unrealized_pnl` seeded with the spread cost. -/
def entryRow (balance price : ℚ) : Pos :=
  { entry_price := price + SPREAD_YEN
    current_price := price + SPREAD_YEN
    units := calculate_daytrade_lot balance
    unrealized_pnl := -(SPREAD_YEN * calculate_daytrade_lot balance) }

/-- The `sim_daytrade_history` row INSERTed on a close (`main.py`, lines
583–595): exit at the market price, `pnl = (price - entry_price) * units`. -/
def closeTrade (p : Pos) (price : ℚ) (a : Action) : Trade :=
  { entry_price := p.entry_price
    exit_price := price
    units := p.units
    pnl := (price - p.entry_price) * p.units
    action := a }

/-- One invocation of the live day-trade logic (`check_daytrade` in
`main.py`; `check_and_execute` in `main_daytrade.py` is the same
transition):
* no position: return unless inside trading hours; enter on an `UP`
  trend at `entry_price = price + SPREAD_YEN` with the 15% compound lot
  and `unrealized_pnl = -SPREAD_YEN * units`;
* position held: `pnl = price - entry_price`; close with the
  arbitrated action when one fires (balance += `pnl * units`, row
  closed, history row appended), otherwise UPDATE the mark price and
  unrealized P&L. -/
def check_daytrade (s : DbState) (hour : ℕ) (trendUp : Bool) (price : ℚ) :
    DbState :=
  match s.openRows with
  | [] =>
    if ¬is_daytrade_hours hour then s
    else if trendUp then
      { s with openRows := [entryRow s.balance price] }
    else s
  | p :: rest =>
    let pnl := price - p.entry_price
    match exit_action hour pnl with
    | some a =>
      { balance := s.balance + (closeTrade p price a).pnl
        openRows := rest
        history := s.history ++ [closeTrade p price a] }
    | none =>
      { s with openRows :=
          { p with current_price := price, unrealized_pnl := pnl * p.units }
            :: rest }

end DtLive

namespace DtOpt

/-- Constant `INITIAL_CAPITAL = 1_000_000` from `daytrade_optimize.py`. -/
def INITIAL_CAPITAL : ℚ := 1000000

/-- Constant named `LOT_RATIO = 0.02` in `daytrade_optimize.py` (renamed `LOT_FRAC`). -/
def LOT_FRAC : ℚ := 2 / 100

/-- Constant `TRADE_START_UTC = 1` (10:00 JST). -/
def TRADE_START_UTC : ℕ := 1

/-- Constant `TRADE_END_UTC = 9` (18:00 JST). -/
def TRADE_END_UTC : ℕ := 9

/-- Constant `SPREAD = 0.004` from `daytrade_optimize.py`. -/
def SPREAD : ℚ := 4 / 1000

/-- Function `calculate_lot` from `daytrade_optimize.py`: 2% of balance floored to
10,000-unit lots, at least 10,000, no upper cap. -/
def calculate_lot (balance : ℚ) : ℤ :=
  max (⌊balance * LOT_FRAC / 10000⌋ * 10000) 10000

/-- Function `get_trend` from `daytrade_optimize.py` at the default `lookback = 5`:
compare close `i` with close `i - 5`, threshold ±0.02. -/
def get_trend (closes : List ℚ) (idx : ℕ) : ℤ :=
  if idx < 5 then 0
  else
    let current := closes.getD idx 0
    let past := closes.getD (idx - 5) 0
    if current > past + 2 / 100 then 1
    else if current < past - 2 / 100 then -1
    else 0

/-- The `result` tags recorded by `run_backtest`. -/
inductive BtResult where
  | TP
  | SL
  | FORCED
  deriving DecidableEq, Repr

/-- One entry of the `trades` list built by `run_backtest`. -/
structure BtTrade where
  result : BtResult
  pnl : ℚ
  deriving DecidableEq, Repr

/-- Loop state of `run_backtest`: `cash`, `position` (0 or 1),
`entry_price`, `current_units`, and the accumulated `trades` list.
(`entry_price` and `current_units` are not reset on exit in the source,
only `position` is.) -/
structure BtState where
  cash : ℚ
  position : ℕ
  entry_price : ℚ
  current_units : ℤ
  trades : List BtTrade
  deriving DecidableEq, Repr

/-- Initial loop state of `run_backtest` (with `compound=True`). -/
def initBt : BtState :=
  { cash := INITIAL_CAPITAL, position := 0, entry_price := 0,
    current_units := 0, trades := [] }

/-- One iteration of the `for i in range(len(df))` loop of `run_backtest`
(lines 65–99), with the bar's close price, UTC hour, and trend value:
* flat: enter long when `TRADE_START_UTC <= hour <= TRADE_END_UTC`
  (inclusive at both ends) and the trend is 1, at `price + SPREAD` with
  the compound lot;
* holding: `pnl = price - entry_price`; take profit is checked first,
  then stop loss, then (`elif`) the forced close `hour >= TRADE_END_UTC`;
  each exit adds `pnl * units` to cash and records its tag. -/
def bt_step (take_profit stop_loss : ℚ) (s : BtState) (price : ℚ)
    (hour : ℕ) (trend : ℤ) : BtState :=
  if s.position = 0 then
    if (TRADE_START_UTC ≤ hour ∧ hour ≤ TRADE_END_UTC) ∧ trend = 1 then
      { s with
          position := 1
          current_units := calculate_lot s.cash
          entry_price := price + SPREAD }
    else s
  else
    let pnl := price - s.entry_price
    let pnl_jpy := pnl * s.current_units
    if pnl ≥ take_profit then
      { s with
          cash := s.cash + pnl_jpy
          position := 0
          trades := s.trades ++ [{ result := BtResult.TP, pnl := pnl_jpy }] }
    else if pnl ≤ -stop_loss then
      { s with
          cash := s.cash + pnl_jpy
          position := 0
          trades := s.trades ++ [{ result := BtResult.SL, pnl := pnl_jpy }] }
    else if TRADE_END_UTC ≤ hour then
      { s with
          cash := s.cash + pnl_jpy
          position := 0
          trades := s.trades ++ [{ result := BtResult.FORCED, pnl := pnl_jpy }] }
    else s

/-- The whole `run_backtest` loop over a bar sequence given as parallel
lists of closes and UTC hours; the trend for bar `i` is recomputed from
the close history exactly as `get_trend(df, i, lookback=5)` does. -/
def run_backtest (take_profit stop_loss : ℚ) (closes : List ℚ)
    (hours : List ℕ) : BtState :=
  (List.range closes.length).foldl
    (fun s i =>
      bt_step take_profit stop_loss s (closes.getD i 0) (hours.getD i 0)
        (get_trend closes i))
    initBt

/-- The metric fields of the dict returned by `run_backtest` that the
claims mention. -/
structure BtMetrics where
  total_trades : ℕ
  wins : ℕ
  win_rate : ℚ
  final_capital : ℚ
  deriving DecidableEq, Repr

/-- The tail of `run_backtest` (lines 103–124): `if len(trades) == 0:
return None`, otherwise the metrics record, with
`win_rate = wins / total_trades * 100 if total_trades > 0 else 0`. -/
def bt_result (trades : List BtTrade) (cash : ℚ) : Option BtMetrics :=
  if trades.length = 0 then none
  else
    let total_trades := trades.length
    let wins := (trades.filter (fun t => 0 < t.pnl)).length
    some
      { total_trades := total_trades
        wins := wins
        win_rate :=
          if 0 < total_trades then (wins : ℚ) / total_trades * 100 else 0
        final_capital := cash }

end DtOpt

namespace Dashboard

/-- The `/api/history` aggregation in `app.py` (lines 133–142) over the
list of `net_pnl` values of `sim_trade_history`: `total_trades` rows,
`wins` rows with `net_pnl > 0`, and
`win_rate = (wins / total_trades * 100) if total_trades > 0 else 0`. -/
def win_rate (netPnls : List ℚ) : ℚ :=
  let total_trades := netPnls.length
  let wins := (netPnls.filter (fun p => 0 < p)).length
  if 0 < total_trades then (wins : ℚ) / total_trades * 100 else 0

end Dashboard

/-!
## Claim theorems
-/

/-- Claim C1, counterexample: in `run_backtest` of `daytrade_optimize.py`,
on a bar where both the take-profit condition (`pnl = 0.2 ≥ 0.15`) and the
forced-close condition (`hour_utc = 9 = TRADE_END_UTC`) hold, the recorded
exit reason is `TP`, not `FORCED`: take-profit is checked before the
session-end forced close there. -/
theorem claim_C1_counterexample :
    (DtOpt.bt_step (15/100) (20/100)
        { cash := 1000000, position := 1, entry_price := 100,
          current_units := 20000, trades := [] } (100.2) 9 0).trades.map
        DtOpt.BtTrade.result = [DtOpt.BtResult.TP] ∧
      DtOpt.BtResult.TP ≠ DtOpt.BtResult.FORCED := by
  constructor
  · norm_num [DtOpt.bt_step, DtOpt.TRADE_END_UTC, DtOpt.TRADE_START_UTC]
  · simp

/-- Claim C1 (amended): the live day-trade engine (`check_daytrade` in
`main.py`, `check_and_execute` in `main_daytrade.py`) arbitrates exits in
the fixed order FORCED_CLOSE, then TAKE_PROFIT, then STOP_LOSS — in
particular any bar at or after the session-end hour closes an open
position with `FORCE_CLOSE`, even when the take-profit condition holds
simultaneously, and take-profit is taken before stop-loss otherwise.  The
day-trade backtest `run_backtest` in `daytrade_optimize.py` instead checks
take-profit first, then stop-loss, then forced close, so a bar where both
take-profit and forced-close conditions hold records `TP` there. -/
theorem claim_C1_theorem :
    (∀ hour pnl, DtLive.DAYTRADE_END_HOUR ≤ hour →
        DtLive.exit_action hour pnl = some DtLive.Action.FORCE_CLOSE) ∧
      (∀ hour pnl, hour < DtLive.DAYTRADE_END_HOUR →
        DtLive.DAYTRADE_TP ≤ pnl →
        DtLive.exit_action hour pnl = some DtLive.Action.TAKE_PROFIT) ∧
      (∀ (s : DtOpt.BtState) (tp sl price : ℚ) (hour : ℕ) (trend : ℤ),
        s.position = 1 → tp ≤ price - s.entry_price →
        DtOpt.TRADE_END_UTC ≤ hour →
        (DtOpt.bt_step tp sl s price hour trend).trades =
          s.trades ++ [{ result := DtOpt.BtResult.TP,
                         pnl := (price - s.entry_price) * s.current_units }]) := by
  refine ⟨fun hour pnl h => ?_, fun hour pnl h1 h2 => ?_,
    fun s tp sl price hour trend hpos htp _ => ?_⟩
  · simp [DtLive.exit_action, DtLive.is_force_close_time, h]
  · simp [DtLive.exit_action, DtLive.is_force_close_time,
      Nat.not_le.mpr h1, ge_iff_le, h2]
  · simp [DtOpt.bt_step, hpos, ge_iff_le, htp]

/-- Claim C1, witness: the live arbitration at hour 18 with
`pnl = 0.2 ≥ DAYTRADE_TP` yields `FORCE_CLOSE`. -/
theorem claim_C1_witness :
    DtLive.exit_action 18 (2/10) = some DtLive.Action.FORCE_CLOSE :=
  claim_C1_theorem.1 18 (2/10) (by norm_num [DtLive.DAYTRADE_END_HOUR])

/-- Claim C5, counterexample: on the concrete 3-bar scenario the balance
after day 2 is not 1,000,100 and the balance after day 3 is not 996,020:
the swap credit for a 20,000-unit position is 100 yen per 10,000 units,
i.e. 200 yen per day, not 100. -/
theorem claim_C5_counterexample :
    (Compound.run [⟨100, 1⟩, ⟨100.5, 1⟩]).cash ≠ 1000100 ∧
      (Compound.run [⟨100, 1⟩, ⟨100.5, 1⟩, ⟨99.8, 0⟩]).cash ≠ 996020 := by
  constructor <;>
    norm_num [Compound.run, Compound.step, Compound.initState,
      Compound.calculate_lot, Compound.SAFETY_FRAC, Compound.SPREAD,
      Compound.SWAP_PER_DAY, Compound.INITIAL_CAPITAL]

/-- Claim C5 (amended): on the 3-bar scenario (capital 1,000,000, ratio
0.02, granularity 10,000, spread 0.004; day 1 price 100 ENTER, day 2
price 100.5 HOLD, day 3 price 99.8 EXIT) the engine computes units =
20,000 and entry fill 100.004 with the balance unchanged at 1,000,000
after day 1; day 2 credits the swap 200 (= 100 yen per 10,000 units on
20,000 units), so the balance is 1,000,200; day 3 realizes gross_pnl =
-4,080, so the balance is 996,120; and the final equity, in the FLAT
state, equals the balance. -/
theorem claim_C5_theorem :
    (Compound.run [⟨100, 1⟩]).current_lot = 20000 ∧
      (Compound.run [⟨100, 1⟩]).buy_price = 100.004 ∧
      (Compound.run [⟨100, 1⟩]).cash = 1000000 ∧
      (Compound.run [⟨100, 1⟩]).position = 1 ∧
      (Compound.run [⟨100, 1⟩, ⟨100.5, 1⟩]).cash = 1000200 ∧
      (Compound.run [⟨100, 1⟩, ⟨100.5, 1⟩, ⟨99.8, 0⟩]).cash =
        (Compound.run [⟨100, 1⟩, ⟨100.5, 1⟩]).cash - 4080 ∧
      (Compound.run [⟨100, 1⟩, ⟨100.5, 1⟩, ⟨99.8, 0⟩]).cash = 996120 ∧
      (Compound.run [⟨100, 1⟩, ⟨100.5, 1⟩, ⟨99.8, 0⟩]).position = 0 ∧
      Compound.equity (Compound.run [⟨100, 1⟩, ⟨100.5, 1⟩, ⟨99.8, 0⟩]) 99.8 =
        (Compound.run [⟨100, 1⟩, ⟨100.5, 1⟩, ⟨99.8, 0⟩]).cash := by
  refine ⟨?_, ?_, ?_, ?_, ?_, ?_, ?_, ?_, ?_⟩ <;>
    norm_num [Compound.run, Compound.step, Compound.initState,
      Compound.equity, Compound.calculate_lot, Compound.SAFETY_FRAC,
      Compound.SPREAD, Compound.SWAP_PER_DAY, Compound.INITIAL_CAPITAL]

/-- Claim C10: in `run_backtest` of `daytrade_optimize.py` the
trading-hours window `TRADE_START_UTC <= hour <= TRADE_END_UTC` includes
the forced-close hour, and the forced-close check runs only for already
open positions; so a flat state at `hour = TRADE_END_UTC` with the trend
condition true opens a new position at that hour (same-bar close is
impossible: the entering bar appends no trade and leaves cash untouched),
while a bar at `hour = TRADE_END_UTC` with an open position and neither
take-profit nor stop-loss reached is force-closed. -/
theorem claim_C10_theorem :
    (∀ (s : DtOpt.BtState) (tp sl : ℚ) (closes : List ℚ) (i : ℕ),
        s.position = 0 → DtOpt.get_trend closes i = 1 →
        (DtOpt.bt_step tp sl s (closes.getD i 0) DtOpt.TRADE_END_UTC
            (DtOpt.get_trend closes i)).position = 1 ∧
          (DtOpt.bt_step tp sl s (closes.getD i 0) DtOpt.TRADE_END_UTC
            (DtOpt.get_trend closes i)).trades = s.trades ∧
          (DtOpt.bt_step tp sl s (closes.getD i 0) DtOpt.TRADE_END_UTC
            (DtOpt.get_trend closes i)).cash = s.cash ∧
          (DtOpt.bt_step tp sl s (closes.getD i 0) DtOpt.TRADE_END_UTC
            (DtOpt.get_trend closes i)).entry_price =
            closes.getD i 0 + DtOpt.SPREAD) ∧
      (∀ (s : DtOpt.BtState) (tp sl price : ℚ) (trend : ℤ),
        s.position = 1 → price - s.entry_price < tp →
        -sl < price - s.entry_price →
        (DtOpt.bt_step tp sl s price DtOpt.TRADE_END_UTC trend).trades =
          s.trades ++ [{ result := DtOpt.BtResult.FORCED,
                         pnl := (price - s.entry_price) * s.current_units }]) := by
  constructor
  · intro s tp sl closes i hpos htrend
    rw [htrend]
    simp [DtOpt.bt_step, hpos, DtOpt.TRADE_START_UTC, DtOpt.TRADE_END_UTC]
  · intro s tp sl price trend hpos htp hsl
    simp [DtOpt.bt_step, hpos, DtOpt.TRADE_END_UTC, ge_iff_le,
      not_le.mpr htp, not_le.mpr hsl]

/-- Claim C10, witness: from the initial backtest state, a bar whose UTC
hour is the session-end hour 9 and whose close history makes `get_trend`
return 1 opens a position. -/
theorem claim_C10_witness :
    (DtOpt.bt_step (15/100) (20/100) DtOpt.initBt
        (([100, 100, 100, 100, 100, 100.1] : List ℚ).getD 5 0)
        DtOpt.TRADE_END_UTC
        (DtOpt.get_trend [100, 100, 100, 100, 100, 100.1] 5)).position = 1 :=
  (claim_C10_theorem.1 DtOpt.initBt (15/100) (20/100)
    [100, 100, 100, 100, 100, 100.1] 5 (by simp [DtOpt.initBt])
    (by norm_num [DtOpt.get_trend])).1

/-- Claim C6: for every balance ≥ 0 the swing sizer `calculate_lot` of
`main.py` equals the spec's
`clamp(floor(balance * ratio / granularity) * granularity, min_units,
max_units)`, is a non-negative multiple of the granularity 10,000, and
lies between `MIN_UNITS = 10,000` and `MAX_UNITS = 100,000`; the capless
variants (`compound_backtest.py`, `daytrade_optimize.py`, identical
formula) are likewise multiples of 10,000 and at least 10,000. -/
theorem claim_C6_theorem (b : ℚ) (hb : 0 ≤ b) :
    Swing.calculate_lot b =
      min (max (⌊b * Swing.LOT_FRAC / 10000⌋ * 10000) Swing.MIN_UNITS)
        Swing.MAX_UNITS ∧
      (10000 : ℤ) ∣ Swing.calculate_lot b ∧
      Swing.MIN_UNITS ≤ Swing.calculate_lot b ∧
      Swing.calculate_lot b ≤ Swing.MAX_UNITS ∧
      0 ≤ Swing.calculate_lot b ∧
      (10000 : ℤ) ∣ Compound.calculate_lot b ∧
      (10000 : ℤ) ≤ Compound.calculate_lot b := by
  have hmaxdvd : ∀ k : ℤ, (10000 : ℤ) ∣ max (k * 10000) 10000 := by
    intro k
    rcases max_choice (k * 10000) (10000 : ℤ) with h | h
    · rw [h]
      exact dvd_mul_left 10000 k
    · rw [h]
  have hswing : (10000 : ℤ) ∣ Swing.calculate_lot b := by
    unfold Swing.calculate_lot Swing.MIN_UNITS Swing.MAX_UNITS
    rcases min_choice (max (⌊b * Swing.LOT_FRAC / 10000⌋ * 10000) 10000)
        (100000 : ℤ) with h | h <;> rw [h]
    · exact hmaxdvd _
    · norm_num
  have hlow : Swing.MIN_UNITS ≤ Swing.calculate_lot b := by
    unfold Swing.calculate_lot Swing.MIN_UNITS Swing.MAX_UNITS
    exact le_min (le_max_right _ _) (by norm_num)
  refine ⟨rfl, hswing, hlow, min_le_right _ _,
    le_trans (by norm_num [Swing.MIN_UNITS]) hlow,
    hmaxdvd _, le_max_right _ _⟩

/-- Claim C6, witness: at balance 0 the sizer still returns the minimum
lot 10,000 (a multiple of the granularity within bounds). -/
theorem claim_C6_witness :
    ((10000 : ℤ) ∣ Swing.calculate_lot 0 ∧
        Swing.MIN_UNITS ≤ Swing.calculate_lot 0 ∧
        Swing.calculate_lot 0 ≤ Swing.MAX_UNITS) ∧
      Swing.calculate_lot 0 = 10000 ∧
      Compound.calculate_lot 0 = 10000 := by
  refine ⟨⟨(claim_C6_theorem 0 le_rfl).2.1, (claim_C6_theorem 0 le_rfl).2.2.1,
    (claim_C6_theorem 0 le_rfl).2.2.2.1⟩, ?_, ?_⟩
  · norm_num [Swing.calculate_lot, Swing.LOT_FRAC, Swing.MIN_UNITS,
      Swing.MAX_UNITS]
  · norm_num [Compound.calculate_lot, Compound.SAFETY_FRAC]

/-- Claim C3: in the swing live engine (`main.py`), every EXIT step
appends exactly one Trade, the balance after the step equals the balance
before plus that Trade's `net_pnl` (no other balance mutation in the
closing step), and the recorded `net_pnl` equals `gross_pnl + swap_total`
exactly. -/
theorem claim_C3_theorem (s : Swing.DbState) (p : Swing.Pos)
    (rest : List Swing.Pos) (o : Swing.Obs)
    (hrows : s.openRows = p :: rest) (hsig : o.sigUp = false) :
    (Swing.check_and_execute s o).trades =
        s.trades ++ [Swing.closeTrade p o.price] ∧
      (Swing.check_and_execute s o).balance =
        s.balance + (Swing.closeTrade p o.price).net_pnl ∧
      (Swing.closeTrade p o.price).net_pnl =
        (Swing.closeTrade p o.price).gross_pnl +
          (Swing.closeTrade p o.price).swap_total := by
  refine ⟨?_, ?_, ?_⟩ <;> simp [Swing.check_and_execute, Swing.closeTrade,
    hrows, hsig]

/-- Claim C3, witness: closing a concrete 20,000-unit position entered at
100 with accumulated swap 200, at market price 101, adds
`net_pnl = gross_pnl + swap_total` to the balance. -/
theorem claim_C3_witness :
    (Swing.check_and_execute
        { balance := 1000000
          openRows := [{ entry_price := 100, current_price := 100,
                         units := 20000, unrealized_pnl := -80,
                         swap_total := 200 }]
          trades := [] }
        { sigUp := false, trendOk := true, price := 101 }).balance =
      1000000 + (Swing.closeTrade
        { entry_price := 100, current_price := 100, units := 20000,
          unrealized_pnl := -80, swap_total := 200 } 101).net_pnl :=
  (claim_C3_theorem _ _ _ _ rfl rfl).2.1

/-- Claim C4, counterexample: in the swing live engine a HOLD step does
not add the per-bar swap to the cash balance: on a concrete open
20,000-unit position the hourly swap 25/3 is accrued into the position's
`swap_total`, while the balance stays exactly 1,000,000 instead of
becoming 1,000,000 + 25/3. -/
theorem claim_C4_counterexample :
    (Swing.check_and_execute
          { balance := 1000000
            openRows := [{ entry_price := 100, current_price := 100,
                           units := 20000, unrealized_pnl := -80,
                           swap_total := 0 }]
            trades := [] }
          { sigUp := true, trendOk := true, price := 100 }).balance =
        1000000 ∧
      (Swing.check_and_execute
          { balance := 1000000
            openRows := [{ entry_price := 100, current_price := 100,
                           units := 20000, unrealized_pnl := -80,
                           swap_total := 0 }]
            trades := [] }
          { sigUp := true, trendOk := true, price := 100 }).openRows.map
          Swing.Pos.swap_total = [25/3] ∧
      (Swing.check_and_execute
          { balance := 1000000
            openRows := [{ entry_price := 100, current_price := 100,
                           units := 20000, unrealized_pnl := -80,
                           swap_total := 0 }]
            trades := [] }
          { sigUp := true, trendOk := true, price := 100 }).balance ≠
        1000000 + 25/3 := by
  refine ⟨?_, ?_, ?_⟩ <;>
    norm_num [Swing.check_and_execute, Swing.calculate_swap, Swing.SWAP_LONG]

/-- Claim C4 (amended): on a HOLD step with an open position, the
backtest engine (`compound_backtest.py`) adds the per-bar swap amount
directly to the cash balance immediately; the live swing variant
(`main.py`) instead leaves the cash balance unchanged on HOLD and accrues
the per-bar swap into the open position's `swap_total`, realizing it into
the balance only at closure.  Spread and directional P&L are realized
only at closure in both. -/
theorem claim_C4_theorem :
    (∀ (s : Compound.SimState) (b : Compound.Bar),
        s.position = 1 → b.signal = 1 →
        (Compound.step s b).cash =
            s.cash + Compound.SWAP_PER_DAY * ((s.current_lot : ℚ) / 10000) ∧
          (Compound.step s b).position = 1) ∧
      (∀ (s : Swing.DbState) (p : Swing.Pos) (rest : List Swing.Pos)
          (o : Swing.Obs), s.openRows = p :: rest → o.sigUp = true →
        (Swing.check_and_execute s o).balance = s.balance ∧
          (Swing.check_and_execute s o).trades = s.trades ∧
          (Swing.check_and_execute s o).openRows =
            { p with
                current_price := o.price
                unrealized_pnl := Swing.calculate_pnl p.entry_price o.price
                  p.units
                swap_total := p.swap_total + Swing.calculate_swap p.units }
              :: rest) := by
  constructor
  · intro s b hpos hsig
    constructor <;> simp [Compound.step, hpos, hsig]
  · intro s p rest o hrows hsig
    refine ⟨?_, ?_, ?_⟩ <;> simp [Swing.check_and_execute, hrows, hsig]

/-- Claim C4, witness: a concrete backtest HOLD bar credits the daily
swap 200 for 20,000 units straight to cash, and a concrete live HOLD
invocation leaves the balance unchanged. -/
theorem claim_C4_witness :
    (Compound.step
          { cash := 1000000, position := 1, current_lot := 20000,
            buy_price := 100.004 } { price := 100.5, signal := 1 }).cash =
        1000000 + Compound.SWAP_PER_DAY * ((20000 : ℤ) : ℚ) / 10000 ∧
      (Swing.check_and_execute
          { balance := 1000000
            openRows := [{ entry_price := 100, current_price := 100,
                           units := 20000, unrealized_pnl := -80,
                           swap_total := 0 }]
            trades := [] }
          { sigUp := true, trendOk := true, price := 100.5 }).balance =
        1000000 := by
  constructor
  · have h := (claim_C4_theorem.1
      { cash := 1000000, position := 1, current_lot := 20000,
        buy_price := 100.004 } { price := 100.5, signal := 1 } rfl rfl).1
    rw [h]
    norm_num [Compound.SWAP_PER_DAY]
  · exact (claim_C4_theorem.2
      { balance := 1000000
        openRows := [{ entry_price := 100, current_price := 100,
                       units := 20000, unrealized_pnl := -80,
                       swap_total := 0 }]
        trades := [] }
      { entry_price := 100, current_price := 100, units := 20000,
        unrealized_pnl := -80, swap_total := 0 } [] _ rfl rfl).1

/-- Claim C9, counterexample: `run_backtest` in `daytrade_optimize.py`
returns `None` for an empty trade log — it does not return a metrics
record with `win_rate = 0`. -/
theorem claim_C9_counterexample :
    DtOpt.bt_result [] 1000000 = none ∧
      (DtOpt.bt_result [] 1000000).map DtOpt.BtMetrics.win_rate ≠ some 0 := by
  constructor <;> simp [DtOpt.bt_result]

/-- Claim C9 (amended): the dashboard aggregation (`/api/history` in
`app.py`) computes `win_rate = wins / total_trades * 100` and returns the
fallback 0 for an empty trade log, without dividing by zero; the backtest
optimizer `run_backtest`, by contrast, returns `None` (no metrics record
at all) when its trade list is empty, and otherwise computes the same
guarded `win_rate` formula. -/
theorem claim_C9_theorem :
    Dashboard.win_rate [] = 0 ∧
      (∀ l : List ℚ, 0 < l.length →
        Dashboard.win_rate l =
          ((l.filter fun p => 0 < p).length : ℚ) / l.length * 100) ∧
      (∀ cash : ℚ, DtOpt.bt_result [] cash = none) ∧
      (∀ (ts : List DtOpt.BtTrade) (cash : ℚ), ts ≠ [] →
        DtOpt.bt_result ts cash = some
          { total_trades := ts.length
            wins := (ts.filter fun t => 0 < t.pnl).length
            win_rate := ((ts.filter fun t => 0 < t.pnl).length : ℚ) /
              ts.length * 100
            final_capital := cash }) := by
  refine ⟨by simp [Dashboard.win_rate], fun l hl => ?_, fun cash => ?_,
    fun ts cash hts => ?_⟩
  · simp [Dashboard.win_rate, hl]
  · simp [DtOpt.bt_result]
  · have hlen : ts.length ≠ 0 := fun h => hts (List.length_eq_zero.mp h)
    simp [DtOpt.bt_result, hlen, Nat.pos_of_ne_zero hlen]

/-- Claim C9, witness: one winning trade out of two gives win rate 50,
and a singleton trade list yields a metrics record. -/
theorem claim_C9_witness :
    Dashboard.win_rate [5, -3] = ((([5, -3] : List ℚ).filter
        fun p => 0 < p).length : ℚ) / ([5, -3] : List ℚ).length * 100 ∧
      DtOpt.bt_result [{ result := DtOpt.BtResult.TP, pnl := 100 }] 1000100 =
        some { total_trades := 1, wins := 1, win_rate := 1 / 1 * 100,
               final_capital := 1000100 } := by
  constructor
  · exact claim_C9_theorem.2.1 [5, -3] (by norm_num)
  · have h := claim_C9_theorem.2.2.2
      [{ result := DtOpt.BtResult.TP, pnl := 100 }] 1000100 (by simp)
    rw [h]
    norm_num


/-- Claim C7: spread is charged exactly once per round trip, at entry.
In `main.py`, `calculate_pnl` deducts the spread once from the
market-price difference.  In the live day-trade engine, a round trip
(entry inside trading hours, forced close at the session end) fills the
entry at `market + SPREAD_YEN`, fills the exit at the market price, and
yields a trade P&L of `(exit_market - entry_market) * units` minus
exactly `SPREAD_YEN * units`. -/
theorem claim_C7_theorem :
    (∀ (e m : ℚ) (u : ℤ), Swing.calculate_pnl e m u =
        (m - e) * u - Swing.SPREAD_YEN * u) ∧
      (∀ (s : DtLive.DbState) (m1 m2 : ℚ) (h1 : ℕ),
        s.openRows = [] → 10 ≤ h1 → h1 < 18 →
        (DtLive.check_daytrade s h1 true m1).openRows =
            [DtLive.entryRow s.balance m1] ∧
          (DtLive.entryRow s.balance m1).entry_price =
            m1 + DtLive.SPREAD_YEN ∧
          (DtLive.check_daytrade (DtLive.check_daytrade s h1 true m1) 18
              false m2).history =
            s.history ++ [DtLive.closeTrade (DtLive.entryRow s.balance m1) m2
              DtLive.Action.FORCE_CLOSE] ∧
          (DtLive.closeTrade (DtLive.entryRow s.balance m1) m2
              DtLive.Action.FORCE_CLOSE).exit_price = m2 ∧
          (DtLive.closeTrade (DtLive.entryRow s.balance m1) m2
              DtLive.Action.FORCE_CLOSE).pnl =
            (m2 - m1) * ((DtLive.entryRow s.balance m1).units : ℚ) -
              DtLive.SPREAD_YEN * ((DtLive.entryRow s.balance m1).units : ℚ) ∧
          (DtLive.check_daytrade (DtLive.check_daytrade s h1 true m1) 18
              false m2).balance =
            s.balance + (DtLive.closeTrade (DtLive.entryRow s.balance m1) m2
              DtLive.Action.FORCE_CLOSE).pnl) := by
  constructor
  · intro e m u
    unfold Swing.calculate_pnl
    ring
  · intro s m1 m2 h1 hrows hh1 hh2
    have hhours : DtLive.is_daytrade_hours h1 = true := by
      simp [DtLive.is_daytrade_hours, DtLive.DAYTRADE_START_HOUR,
        DtLive.DAYTRADE_END_HOUR]
      omega
    have hstep1 : DtLive.check_daytrade s h1 true m1 =
        { s with openRows := [DtLive.entryRow s.balance m1] } := by
      simp [DtLive.check_daytrade, hrows, hhours]
    have hforce : ∀ q : ℚ, DtLive.exit_action 18 q =
        some DtLive.Action.FORCE_CLOSE := by
      intro q
      simp [DtLive.exit_action, DtLive.is_force_close_time,
        DtLive.DAYTRADE_END_HOUR]
    refine ⟨by rw [hstep1], rfl, ?_, rfl, ?_, ?_⟩
    · rw [hstep1]
      simp [DtLive.check_daytrade, hforce]
    · simp only [DtLive.closeTrade, DtLive.entryRow]
      ring
    · rw [hstep1]
      simp [DtLive.check_daytrade, hforce]

/-- Claim C7, witness: a concrete round trip (balance 1,000,000, entry
at market 100 at hour 12, forced close at market 100.3) realizes
`(100.3 - 100) * units - 0.004 * units`. -/
theorem claim_C7_witness :
    (DtLive.closeTrade (DtLive.entryRow 1000000 100) 100.3
        DtLive.Action.FORCE_CLOSE).pnl =
      (100.3 - 100) * ((DtLive.entryRow 1000000 100).units : ℚ) -
        DtLive.SPREAD_YEN * ((DtLive.entryRow 1000000 100).units : ℚ) :=
  (claim_C7_theorem.2 { balance := 1000000, openRows := [], history := [] }
    100 100.3 12 rfl (by norm_num) (by norm_num)).2.2.2.2.1

/-- Helper: one swing invocation keeps the number of OPEN rows at most
one. -/
lemma swing_step_rows_le (s : Swing.DbState) (o : Swing.Obs)
    (h : s.openRows.length ≤ 1) :
    (Swing.check_and_execute s o).openRows.length ≤ 1 := by
  rcases hrows : s.openRows with _ | ⟨p, rest⟩
  · by_cases hc : (o.sigUp && o.trendOk) = true <;>
      simp [Swing.check_and_execute, hrows, hc]
  · rw [hrows] at h
    have hrest : rest = [] := by
      cases rest with
      | nil => rfl
      | cons q t => simp at h
    subst hrest
    by_cases hsig : o.sigUp = true <;>
      simp [Swing.check_and_execute, hrows, hsig]

/-- Helper: the OPEN-row bound is preserved along any invocation
sequence. -/
lemma swing_foldl_rows_le (obs : List Swing.Obs) (s : Swing.DbState)
    (h : s.openRows.length ≤ 1) :
    (obs.foldl Swing.check_and_execute s).openRows.length ≤ 1 := by
  induction obs generalizing s with
  | nil => simpa using h
  | cons o os ih =>
    rw [List.foldl_cons]
    exact ih _ (swing_step_rows_le s o h)

/-- Helper: one compound-backtest bar keeps `position` in {0, 1}. -/
lemma compound_step_pos_le (s : Compound.SimState) (b : Compound.Bar)
    (h : s.position ≤ 1) : (Compound.step s b).position ≤ 1 := by
  unfold Compound.step
  split_ifs <;> simp_all

/-- Helper: the `position ≤ 1` bound is preserved along any bar
sequence. -/
lemma compound_foldl_pos_le (bars : List Compound.Bar)
    (s : Compound.SimState) (h : s.position ≤ 1) :
    (bars.foldl Compound.step s).position ≤ 1 := by
  induction bars generalizing s with
  | nil => simpa using h
  | cons b bs ih =>
    rw [List.foldl_cons]
    exact ih _ (compound_step_pos_le s b h)

/-- Claim C2: the engine never holds two simultaneously OPEN positions.
Along any invocation sequence of the swing live engine from a fresh
state, at most one OPEN `sim_positions` row exists; the number of OPEN
rows grows on an invocation only when the engine was FLAT (no OPEN row);
and the compound-backtest state machine keeps `position ≤ 1` over any
bar sequence. -/
theorem claim_C2_theorem :
    (∀ (capital : ℚ) (obs : List Swing.Obs),
        (Swing.runLive capital obs).openRows.length ≤ 1) ∧
      (∀ (s : Swing.DbState) (o : Swing.Obs),
        s.openRows.length < (Swing.check_and_execute s o).openRows.length →
        s.openRows = []) ∧
      (∀ bars : List Compound.Bar, (Compound.run bars).position ≤ 1) := by
  refine ⟨fun capital obs => ?_, fun s o hlt => ?_, fun bars => ?_⟩
  · exact swing_foldl_rows_le obs (Swing.initDb capital)
      (by simp [Swing.initDb])
  · rcases hrows : s.openRows with _ | ⟨p, rest⟩
    · rfl
    · exfalso
      rw [hrows] at hlt
      by_cases hsig : o.sigUp = true <;>
        simp [Swing.check_and_execute, hrows, hsig] at hlt
  · exact compound_foldl_pos_le bars Compound.initState
      (by simp [Compound.initState])

/-- Claim C2, witness: a concrete enter–hold–exit invocation sequence
ends with at most one OPEN row; the fresh state, on which an entry does
grow the OPEN-row count, is FLAT; and a concrete 2-bar compound run
keeps `position ≤ 1`. -/
theorem claim_C2_witness :
    (Swing.runLive 1000000
        [{ sigUp := true, trendOk := true, price := 100 },
         { sigUp := true, trendOk := true, price := 101 },
         { sigUp := false, trendOk := true, price := 99 }]).openRows.length
        ≤ 1 ∧
      (Swing.initDb 1000000).openRows = [] ∧
      (Compound.run [⟨100, 1⟩, ⟨101, 1⟩]).position ≤ 1 := by
  refine ⟨claim_C2_theorem.1 1000000 _, ?_, claim_C2_theorem.2.2 _⟩
  exact claim_C2_theorem.2.1 (Swing.initDb 1000000)
    { sigUp := true, trendOk := true, price := 100 }
    (by simp [Swing.initDb, Swing.check_and_execute])

/-- Helper: unfolding of the swing invocation in the FLAT case. -/
lemma swing_step_flat (s : Swing.DbState) (o : Swing.Obs)
    (hrows : s.openRows = []) :
    Swing.check_and_execute s o =
      if o.sigUp && o.trendOk then
        { s with openRows := [Swing.entryRow s.balance o.price] }
      else s := by
  simp only [Swing.check_and_execute, hrows]

/-- Helper: unfolding of the swing invocation in the OPEN case. -/
lemma swing_step_open (s : Swing.DbState) (p : Swing.Pos)
    (rest : List Swing.Pos) (o : Swing.Obs) (hrows : s.openRows = p :: rest) :
    Swing.check_and_execute s o =
      if o.sigUp then
        { s with openRows :=
            { p with
                current_price := o.price
                unrealized_pnl := Swing.calculate_pnl p.entry_price o.price
                  p.units
                swap_total := p.swap_total + Swing.calculate_swap p.units }
              :: rest }
      else
        { balance := s.balance + (Swing.closeTrade p o.price).net_pnl
          openRows := rest
          trades := s.trades ++ [Swing.closeTrade p o.price] } := by
  simp only [Swing.check_and_execute, hrows]

/-- Helper: unfolding of the day-trade invocation in the FLAT case. -/
lemma dt_step_flat (s : DtLive.DbState) (hour : ℕ) (trendUp : Bool)
    (price : ℚ) (hrows : s.openRows = []) :
    DtLive.check_daytrade s hour trendUp price =
      if ¬DtLive.is_daytrade_hours hour then s
      else if trendUp then
        { s with openRows := [DtLive.entryRow s.balance price] }
      else s := by
  simp only [DtLive.check_daytrade, hrows]

/-- Helper: unfolding of the day-trade invocation in the OPEN case. -/
lemma dt_step_open (s : DtLive.DbState) (p : DtLive.Pos)
    (rest : List DtLive.Pos) (hour : ℕ) (trendUp : Bool) (price : ℚ)
    (hrows : s.openRows = p :: rest) :
    DtLive.check_daytrade s hour trendUp price =
      match DtLive.exit_action hour (price - p.entry_price) with
      | some a =>
        { balance := s.balance + (DtLive.closeTrade p price a).pnl
          openRows := rest
          history := s.history ++ [DtLive.closeTrade p price a] }
      | none =>
        { s with openRows :=
            { p with
                current_price := price
                unrealized_pnl := (price - p.entry_price) * p.units }
              :: rest } := by
  simp only [DtLive.check_daytrade, hrows]

/-- Claim C8, counterexample: a second invocation of the swing live
engine with the very same market observation is not a no-op on persisted
state: starting from a fresh state, the first invocation opens a
position and the second (an HOLD on unchanged data) accrues another
hour of swap into the persisted `sim_positions` row, so the persisted
state after the second call differs from the state after the first. -/
theorem claim_C8_counterexample :
    Swing.check_and_execute
        (Swing.check_and_execute (Swing.initDb 1000000)
          { sigUp := true, trendOk := true, price := 100 })
        { sigUp := true, trendOk := true, price := 100 } ≠
      Swing.check_and_execute (Swing.initDb 1000000)
        { sigUp := true, trendOk := true, price := 100 } := by
  intro hcontra
  have h2 := congrArg (fun st => st.openRows.map Swing.Pos.swap_total) hcontra
  norm_num [Swing.check_and_execute, Swing.initDb, Swing.entryRow,
    Swing.calculate_swap, Swing.SWAP_LONG, Swing.calculate_lot,
    Swing.LOT_FRAC, Swing.MIN_UNITS, Swing.MAX_UNITS] at h2

/-- Claim C8 (amended): invoking either live engine twice in succession
with the same unchanged market observation (and, for the day-trade
variant, the same wall-clock hour) produces no new Trade and no change
to the persisted Balance on the second invocation, from any state with
at most one OPEN row.  Repeated invocation is not, however, a no-op on
all persisted state: a HOLD re-invocation accrues another hour of swap
into the open row's `swap_total` (swing) and refreshes mark prices, and
a flat re-invocation after a close may re-enter a fresh position. -/
theorem claim_C8_theorem :
    (∀ (s : Swing.DbState) (o : Swing.Obs), s.openRows.length ≤ 1 →
        (Swing.check_and_execute (Swing.check_and_execute s o) o).trades =
            (Swing.check_and_execute s o).trades ∧
          (Swing.check_and_execute (Swing.check_and_execute s o) o).balance =
            (Swing.check_and_execute s o).balance) ∧
      (∀ (s : DtLive.DbState) (hour : ℕ) (trendUp : Bool) (price : ℚ),
        s.openRows.length ≤ 1 →
        (DtLive.check_daytrade (DtLive.check_daytrade s hour trendUp price)
              hour trendUp price).history =
            (DtLive.check_daytrade s hour trendUp price).history ∧
          (DtLive.check_daytrade (DtLive.check_daytrade s hour trendUp price)
              hour trendUp price).balance =
            (DtLive.check_daytrade s hour trendUp price).balance) := by
  constructor
  · intro s o h
    rcases hrows : s.openRows with _ | ⟨p, rest⟩
    · rw [swing_step_flat s o hrows]
      by_cases hc : (o.sigUp && o.trendOk) = true
      · have hsig : o.sigUp = true := ((Bool.and_eq_true _ _).mp hc).1
        rw [if_pos hc]
        rw [swing_step_open _ _ _ o rfl, if_pos hsig]
        exact ⟨rfl, rfl⟩
      · rw [if_neg hc, swing_step_flat s o hrows, if_neg hc]
        exact ⟨rfl, rfl⟩
    · rw [hrows] at h
      have hrest : rest = [] := by
        cases rest with
        | nil => rfl
        | cons q t => simp at h
      subst hrest
      by_cases hsig : o.sigUp = true
      · rw [swing_step_open s p [] o hrows, if_pos hsig]
        rw [swing_step_open _ _ _ o rfl, if_pos hsig]
        exact ⟨rfl, rfl⟩
      · rw [swing_step_open s p [] o hrows, if_neg hsig]
        rw [swing_step_flat _ o rfl]
        have hc : ¬((o.sigUp && o.trendOk) = true) := by
          simp [Bool.and_eq_true, hsig]
        rw [if_neg hc]
        exact ⟨rfl, rfl⟩
  · intro s hour trendUp price h
    rcases hrows : s.openRows with _ | ⟨p, rest⟩
    · rw [dt_step_flat s hour trendUp price hrows]
      by_cases hh : DtLive.is_daytrade_hours hour = true
      · rw [if_neg (by simp [hh])]
        have hlt : hour < 18 := by
          have := of_decide_eq_true hh
          exact this.2
        by_cases ht : trendUp = true
        · rw [if_pos ht]
          have hnone : DtLive.exit_action hour
              (price - (DtLive.entryRow s.balance price).entry_price) =
                none := by
            have hpnl : price - (DtLive.entryRow s.balance price).entry_price =
                -DtLive.SPREAD_YEN := by
              simp [DtLive.entryRow]
            rw [hpnl]
            simp only [DtLive.exit_action, DtLive.is_force_close_time,
              DtLive.DAYTRADE_END_HOUR, DtLive.DAYTRADE_TP, DtLive.DAYTRADE_SL,
              DtLive.SPREAD_YEN]
            rw [if_neg (by simp; omega), if_neg (by norm_num),
              if_neg (by norm_num)]
          rw [dt_step_open _ _ _ hour trendUp price rfl]
          rw [hnone]
          exact ⟨rfl, rfl⟩
        · rw [if_neg ht, dt_step_flat s hour trendUp price hrows,
            if_neg (by simp [hh]), if_neg ht]
          exact ⟨rfl, rfl⟩
      · rw [if_pos (by simp [hh]), dt_step_flat s hour trendUp price hrows,
          if_pos (by simp [hh])]
        exact ⟨rfl, rfl⟩
    · rw [hrows] at h
      have hrest : rest = [] := by
        cases rest with
        | nil => rfl
        | cons q t => simp at h
      subst hrest
      rcases ha : DtLive.exit_action hour (price - p.entry_price) with _ | a
      · rw [dt_step_open s p [] hour trendUp price hrows]
        rw [ha]
        rw [dt_step_open _ _ _ hour trendUp price rfl]
        have ha2 : DtLive.exit_action hour
            (price - ({ p with
                current_price := price
                unrealized_pnl := (price - p.entry_price) * p.units }
                  : DtLive.Pos).entry_price) = none := ha
        rw [ha2]
        exact ⟨rfl, rfl⟩
      · rw [dt_step_open s p [] hour trendUp price hrows]
        rw [ha]
        rw [dt_step_flat _ hour trendUp price rfl]
        constructor <;> split_ifs <;> rfl

/-- Claim C8, witness: from a fresh swing state, a second invocation
with the same observation (price 100, signal UP, trend OK) appends no
trade and leaves the balance unchanged. -/
theorem claim_C8_witness :
    (Swing.check_and_execute
          (Swing.check_and_execute (Swing.initDb 1000000)
            { sigUp := true, trendOk := true, price := 100 })
          { sigUp := true, trendOk := true, price := 100 }).trades =
        (Swing.check_and_execute (Swing.initDb 1000000)
          { sigUp := true, trendOk := true, price := 100 }).trades ∧
      (Swing.check_and_execute
          (Swing.check_and_execute (Swing.initDb 1000000)
            { sigUp := true, trendOk := true, price := 100 })
          { sigUp := true, trendOk := true, price := 100 }).balance =
        (Swing.check_and_execute (Swing.initDb 1000000)
          { sigUp := true, trendOk := true, price := 100 }).balance :=
  claim_C8_theorem.1 (Swing.initDb 1000000)
    { sigUp := true, trendOk := true, price := 100 }
    (by simp [Swing.initDb])
